import Mathlib

/-!
Verification of the call-session module of a SIP softphone
(`src/call-session/index.ts`): session construction from a SIP offer,
the listeners registered on the shared signaling channel, the inbound
SRTP datagram pipeline, DTMF sending, transfer, hangup and disposal.

The embedding is shallow: the TypeScript class state becomes an
explicit `SessionState`; side effects (UDP socket sends, signaling
sends, event emissions, socket open/close) become an explicit `Effect`
trace; a thrown JavaScript exception that the source does not catch
becomes a `Bool` "threw" flag, with the effects performed before the
throw kept in the trace.  External trusted libraries (SRTP
encrypt/decrypt combined with RTP (de)serialization, Opus decode) and
the repository's `utils` helpers (`extractAddress`, `branch`,
`randomInt`) are passed as explicit function/value parameters.
-/

namespace RC

/-- The RTP header fields the call-session code reads or writes
(`payloadType`, `sequenceNumber`, `timestamp`, `ssrc`); the remaining
fields of `werift-rtp`'s `RtpHeader` are constants in `sendDTMF` and
are never inspected. -/
structure RtpHeader where
  payloadType : Nat
  sequenceNumber : Nat
  timestamp : Nat
  ssrc : Nat
deriving DecidableEq, Repr

structure RtpPacket where
  header : RtpHeader
  payload : List Nat
deriving DecidableEq, Repr

/-- Projection of a structured inbound SIP message as the session code
consumes it: `subject` is the first line, `callId` is
`headers['Call-ID']`, `cseq` is `headers.CSeq`, `body` the message
body. -/
structure InboundMessage where
  subject : String
  callId : String
  cseq : String
  body : String
deriving DecidableEq, Repr

/-- A `RequestMessage` as built by the session code: a subject line
plus a header map (association list, insertion order kept). -/
structure RequestMessage where
  subject : String
  headers : List (String × String)
deriving DecidableEq, Repr

/-- An outbound SIP message handed to `softphone.send`: either a fresh
request or a `ResponseMessage(inboundMessage, code)`. -/
inductive SipOut where
  | req : RequestMessage → SipOut
  | res : InboundMessage → Nat → SipOut
deriving DecidableEq, Repr

/-- The events a `CallSession` emits (`this.emit(...)`). -/
inductive SessionEvent where
  | rtpPacket : RtpPacket → SessionEvent
  | dtmfPacket : RtpPacket → SessionEvent
  | dtmf : Char → SessionEvent
  | audioPacket : RtpPacket → SessionEvent
  | busy : SessionEvent
  | disposed : SessionEvent
deriving DecidableEq, Repr

/-- Observable side effects of the session code, in program order.
`socketSend` is `this.socket.send(data, remotePort, remoteIP)`;
`sipSend` is `this.softphone.send(message)`; `socketClose` records
every invocation of `this.socket.close()`, including one that throws;
`encryptCall` records every invocation of `srtpSession.encrypt`. -/
inductive Effect where
  | emit : SessionEvent → Effect
  | socketSend : List Nat → Effect
  | sipSend : SipOut → Effect
  | socketOpen : Effect
  | socketClose : Effect
  | encryptCall : List Nat → Effect
deriving DecidableEq, Repr

/-- The softphone configuration fields the session code reads:
`softphone.sipInfo.domain` and `softphone.fakeDomain`. -/
structure SoftphoneCfg where
  domain : String
  fakeDomain : String
deriving DecidableEq, Repr

/-- The mutable state of one `CallSession` plus the book-keeping the
runtime holds for it: whether its UDP socket exists and is not closed,
whether the socket 'message' listener is attached, whether the
session's own EventEmitter listeners have been removed, and which
listeners the session has registered on the shared softphone
'message' channel. -/
structure SessionState where
  softphone : SoftphoneCfg
  callId : String
  localPeer : String
  remotePeer : String
  remoteIP : String
  remotePort : Nat
  disposed : Bool
  socketOpen : Bool
  socketHandlerAttached : Bool
  sessionListeners : Bool
  byeHandlerOn : Bool
  notifyHandlerOn : Bool
deriving DecidableEq, Repr

/-- JavaScript `String.prototype.startsWith`. -/
def strStarts (s pre : String) : Bool :=
  pre.toList.isPrefixOf s.toList

/-- JavaScript `String.prototype.endsWith`. -/
def strEnds (s suf : String) : Bool :=
  suf.toList.isSuffixOf s.toList

def isJsSpace (c : Char) : Bool :=
  c = ' ' || c = '\t' || c = '\n' || c = '\r'

/-- JavaScript `String.prototype.trim` (whitespace here: space, tab,
newline, carriage return — SIP bodies are ASCII). -/
def strTrim (s : String) : String :=
  String.mk (((s.toList.dropWhile isJsSpace).reverse.dropWhile isJsSpace).reverse)

/-- One attempt of a regex of shape `pre(cls+)` (optionally followed by
a literal space) at the current position: the literal `pre` must match
here, then a nonempty greedy run of `cls` characters; with `needSpace`
the run must be followed by `' '` (the pattern `/m=audio (\d+) /` has a
literal trailing space, and greedy backtracking inside `\d+` can never
repair a missing space, so longest-run-then-space is exact). -/
def tryMatchAt (pre : List Char) (cls : Char → Bool) (needSpace : Bool)
    (l : List Char) : Option (List Char) :=
  if pre.isPrefixOf l then
    let tail := l.drop pre.length
    let run := tail.takeWhile cls
    if run.isEmpty then none
    else if needSpace then
      match tail.drop run.length with
      | ' ' :: _ => some run
      | _ => none
    else some run
  else none

/-- Leftmost regex match: try each start position in order. -/
def scanMatch (pre : List Char) (cls : Char → Bool) (needSpace : Bool) :
    List Char → Option (List Char)
  | [] => none
  | c :: cs =>
    match tryMatchAt pre cls needSpace (c :: cs) with
    | some r => some r
    | none => scanMatch pre cls needSpace cs

/-- `parseInt(digits, 10)` on a nonempty all-digit string. -/
def parseDigits (ds : List Char) : Nat :=
  ds.foldl (fun acc c => acc * 10 + (c.toNat - 48)) 0

/-- Group 1 of `body.match(/c=IN IP4 ([\d.]+)/)`, or `none` when the
regex does not match (the source then throws a TypeError through the
non-null assertion `!`). -/
def matchCIP (body : String) : Option String :=
  (scanMatch ("c=IN IP4 ".toList) (fun c => c.isDigit || c = '.') false
    body.toList).map (fun r => String.mk r)

/-- Group 1 of `body.match(/m=audio (\d+) /)` fed to `parseInt`, or
`none` when the regex does not match. -/
def matchMAudio (body : String) : Option Nat :=
  (scanMatch ("m=audio ".toList) Char.isDigit true body.toList).map parseDigits

/-- The `CallSession` constructor (lines 30–39): stores the softphone
and the triggering SIP message, then parses the remote media endpoint
out of the offer body.  A missing `c=IN IP4` or `m=audio` line makes
the non-null assertion throw (`none` result), and the constructor
performs no I/O at all — in particular no UDP socket is opened, that
happens only in `startLocalServices`.  `localPeer`/`remotePeer` are
assigned later by the concrete subclasses. -/
def construct (sp : SoftphoneCfg) (sm : InboundMessage) :
    Option SessionState × List Effect :=
  match matchCIP sm.body with
  | none => (none, [])
  | some ip =>
    match matchMAudio sm.body with
    | none => (none, [])
    | some port =>
      (some { softphone := sp, callId := sm.callId, localPeer := "",
              remotePeer := "", remoteIP := ip, remotePort := port,
              disposed := false, socketOpen := false,
              socketHandlerAttached := false, sessionListeners := true,
              byeHandlerOn := false, notifyHandlerOn := false }, [])

def helloBytes : List Nat := [104, 101, 108, 108, 111]

/-- `startLocalServices` resource acquisition (lines 140–163, 180):
creates and binds the UDP socket, attaches the socket 'message'
listener, sends the unencrypted hole-punch datagram `'hello'`, and
registers `byeHandler` on the shared signaling channel. -/
def startLocalServices (s : SessionState) : SessionState × List Effect :=
  ({ s with socketOpen := true, socketHandlerAttached := true,
            byeHandlerOn := true },
   [Effect.socketOpen, Effect.socketSend helloBytes])

/-- Modelled from the spec: the DTMF codec module (imported as
`../dtmf`) is not under `src/`.  Spec §4.1/§3: event code 0–9 for the
digit keys, 10 for the star key, 11 for the hash key; any other
character is out of range. -/
def charToCode (c : Char) : Option Nat :=
  if '0' ≤ c ∧ c ≤ '9' then some (c.toNat - 48)
  else if c = '*' then some 10
  else if c = '#' then some 11
  else none

/-- Modelled from the spec: inverse of `charToCode`. -/
def codeToChar (n : Nat) : Option Char :=
  if n ≤ 9 then some (Char.ofNat (n + 48))
  else if n = 10 then some '*'
  else if n = 11 then some '#'
  else none

/-- Modelled from the spec: `DTMF.charToPayloads` (module missing from
`src/`).  Input is restricted to the 12 keypad characters — an
out-of-range character is rejected before any I/O (§7
InvalidDtmfChar); a valid character yields a short sequence (≥ 2) of
4-byte telephone-event payloads `[event, end-flag/volume, duration-hi,
duration-lo]` with ascending duration, the last one flagged
end-of-event (§3, §4.1). -/
def charToPayloads (c : Char) : Option (List (List Nat)) :=
  (charToCode c).map (fun code => [[code, 10, 0, 160], [code, 138, 1, 64]])

/-- Modelled from the spec: `DTMF.payloadToChar` (module missing from
`src/`) — reads the event code of a 4-byte telephone-event payload
back to its keypad character, `none` for an unrecognized payload
(§4.1). -/
def payloadToChar (payload : List Nat) : Option Char :=
  match payload with
  | event :: _ :: _ :: _ :: [] => codeToChar event
  | _ => none

/-- The socket 'message' listener body (lines 142–157): decrypt and
deserialize, emit `rtpPacket`, then classify by payload type 101.
`decrypt` stands for `RtpPacket.deSerialize (this.srtpSession.decrypt
message)` (trusted external library); `none` models the library
throwing on a datagram that fails to decrypt/deserialize.  The source
wraps the call in no try/catch, so the failure propagates out of the
listener (`Except.error`). -/
def onSocketMessage (decrypt : List Nat → Option RtpPacket)
    (opusDecode : List Nat → List Nat) (message : List Nat) :
    Except Unit (List SessionEvent) :=
  match decrypt message with
  | none => Except.error ()
  | some rtpPacket =>
    if rtpPacket.header.payloadType = 101 then
      Except.ok ([SessionEvent.rtpPacket rtpPacket,
                  SessionEvent.dtmfPacket rtpPacket] ++
        (match payloadToChar rtpPacket.payload with
         | some c => [SessionEvent.dtmf c]
         | none => []))
    else
      Except.ok [SessionEvent.rtpPacket rtpPacket,
        SessionEvent.audioPacket
          { rtpPacket with payload := opusDecode rtpPacket.payload }]

/-- Runs the socket 'message' listener on a sequence of inbound
datagrams.  Faithful to the runtime: an exception escaping the
listener is uncaught (by default fatal to the Node process), so
processing stops there (`true` flag); the events emitted before the
throw are kept. -/
def processDatagrams (decrypt : List Nat → Option RtpPacket)
    (opusDecode : List Nat → List Nat) :
    List (List Nat) → List SessionEvent × Bool
  | [] => ([], false)
  | d :: ds =>
    match onSocketMessage decrypt opusDecode d with
    | Except.error () => ([], true)
    | Except.ok evs =>
      let (rest, t) := processDatagrams decrypt opusDecode ds
      (evs ++ rest, t)

/-- `dispose()` (lines 183–189): sets the flag, emits 'disposed',
removes the session's and the socket's listeners, then calls
`socket.close()`.  There is no double-call guard: invoked on a
session whose socket is already closed, the `close()` call throws
`ERR_SOCKET_DGRAM_NOT_RUNNING` (`true` flag).  Every `close`
invocation, including the throwing one, is recorded in the trace. -/
def dispose (s : SessionState) : SessionState × List Effect × Bool :=
  ({ s with disposed := true, sessionListeners := false,
            socketHandlerAttached := false, socketOpen := false },
   [Effect.emit SessionEvent.disposed, Effect.socketClose], !s.socketOpen)

/-- The `byeHandler` listener registered on the shared signaling
channel by `startLocalServices` (lines 165–179): ignores messages not
matching this session's Call-ID; on `486 Busy Here` deregisters
itself, emits `busy`, disposes; on a CSeq ending in ` BYE`
deregisters itself and disposes. -/
def byeHandlerFn (s : SessionState) (m : InboundMessage) :
    SessionState × List Effect × Bool :=
  if m.callId ≠ s.callId then (s, [], false)
  else if strEnds m.subject "486 Busy Here" then
    let r := dispose { s with byeHandlerOn := false }
    (r.1, Effect.emit SessionEvent.busy :: r.2.1, r.2.2)
  else if strEnds m.cseq " BYE" then
    dispose { s with byeHandlerOn := false }
  else (s, [], false)

/-- The `notifyHandler` listener registered by `transfer`
(lines 77–86): it filters only on the method in the subject line — not
on Call-ID — answers every NOTIFY with a 200 response, and deregisters
itself when the NOTIFY body trims to `SIP/2.0 200 OK`. -/
def notifyHandlerFn (s : SessionState) (m : InboundMessage) :
    SessionState × List Effect :=
  if strStarts m.subject "NOTIFY " then
    if strTrim m.body = "SIP/2.0 200 OK" then
      ({ s with notifyHandlerOn := false },
       [Effect.sipSend (SipOut.res m 200)])
    else (s, [Effect.sipSend (SipOut.res m 200)])
  else (s, [])

/-- Continuation of the signaling dispatch after `byeHandler` ran (or
was skipped): an exception escaping it aborts the dispatch; otherwise
`transfer`'s `notifyHandler` runs next when registered. -/
def afterByeDispatch (m : InboundMessage)
    (r1 : SessionState × List Effect × Bool) :
    SessionState × List Effect × Bool :=
  if r1.2.2 then (r1.1, r1.2.1, true)
  else if r1.1.notifyHandlerOn then
    ((notifyHandlerFn r1.1 m).1, r1.2.1 ++ (notifyHandlerFn r1.1 m).2,
      false)
  else (r1.1, r1.2.1, false)

/-- Dispatch of one inbound softphone 'message' event to the listeners
this session has registered, in registration order (`byeHandler` from
`startLocalServices`, then `transfer`'s `notifyHandler` when
registered). -/
def handleSipMessage (s : SessionState) (m : InboundMessage) :
    SessionState × List Effect × Bool :=
  afterByeDispatch m (if s.byeHandlerOn then byeHandlerFn s m
                      else (s, [], false))

/-- The REFER request built by `transfer` (lines 64–74).
`extractAddress` and `branchValue` stand for the repository's `utils`
module (not under `src/`): `extractAddress` pulls the bare SIP address
out of a peer string, `branchValue` is the fresh random `branch()`. -/
def referRequest (extractAddress : String → String) (branchValue : String)
    (s : SessionState) (target : String) : RequestMessage :=
  { subject := "REFER sip:" ++ extractAddress s.remotePeer ++ " SIP/2.0",
    headers := [("Call-ID", s.callId), ("From", s.localPeer),
      ("To", s.remotePeer),
      ("Via", "SIP/2.0/TLS " ++ s.softphone.fakeDomain ++ ";branch=" ++
        branchValue),
      ("Refer-To", "sip:" ++ target ++ "@sip.ringcentral.com"),
      ("Referred-By", "<" ++ extractAddress s.localPeer ++ ">")] }

/-- `transfer(target)` (lines 63–88): sends the single REFER request
and registers `notifyHandler` on the shared signaling channel. -/
def transfer (extractAddress : String → String) (branchValue : String)
    (s : SessionState) (target : String) : SessionState × List Effect :=
  ({ s with notifyHandlerOn := true },
   [Effect.sipSend (SipOut.req
      (referRequest extractAddress branchValue s target))])

/-- The BYE request built by `hangup` (lines 91–99). -/
def byeRequest (branchValue : String) (s : SessionState) : RequestMessage :=
  { subject := "BYE sip:" ++ s.softphone.domain ++ " SIP/2.0",
    headers := [("Call-ID", s.callId), ("From", s.localPeer),
      ("To", s.remotePeer),
      ("Via", "SIP/2.0/TLS " ++ s.softphone.fakeDomain ++ ";branch=" ++
        branchValue)] }

/-- `hangup()` (lines 90–101): sends one BYE addressed to the home
server's domain over the signaling channel; touches no session state,
emits nothing, performs no UDP socket operation. -/
def hangup (branchValue : String) (s : SessionState) :
    SessionState × List Effect :=
  (s, [Effect.sipSend (SipOut.req (byeRequest branchValue s))])

/-- The `sendDTMF` loop (lines 125–129): per telephone-event payload,
bump the sequence number, encrypt payload and header, then
`this.send` the ciphertext.  `socket.send` on a closed socket throws,
stopping the loop after the encryption of that iteration. -/
def dtmfLoop (encrypt : List Nat → RtpHeader → List Nat) (hdr : RtpHeader)
    (socketIsOpen : Bool) (seq : Nat) :
    List (List Nat) → List Effect × Bool
  | [] => ([], false)
  | p :: ps =>
    let cipher := encrypt p { hdr with sequenceNumber := seq }
    if socketIsOpen then
      let r := dtmfLoop encrypt hdr socketIsOpen (seq + 1) ps
      (Effect.encryptCall p :: Effect.socketSend cipher :: r.1, r.2)
    else ([Effect.encryptCall p], true)

/-- `sendDTMF(char)` (lines 103–130): `now` is
`Math.floor(Date.now() / 1000)` and `ssrc` the `randomInt()` value
(`utils` module not under `src/`).  The sequence number is seeded with
`now % 65536` and incremented per payload.  `charToPayloads` rejecting
an out-of-range character throws before any encryption or socket
send. -/
def sendDTMF (encrypt : List Nat → RtpHeader → List Nat) (now ssrc : Nat)
    (s : SessionState) (c : Char) : SessionState × List Effect × Bool :=
  match charToPayloads c with
  | none => (s, [], true)
  | some payloads =>
    let r := dtmfLoop encrypt
      { payloadType := 101, sequenceNumber := now % 65536,
        timestamp := now, ssrc := ssrc }
      s.socketOpen (now % 65536) payloads
    (s, r.1, r.2)

/-- The inputs that can drive one step of an established session:
an inbound signaling message, an inbound UDP datagram, or one of the
public application calls. -/
inductive Input where
  | sip : InboundMessage → Input
  | datagram : List Nat → Input
  | callHangup : String → Input
  | callTransfer : (String → String) → String → String → Input
  | callSendDTMF : (List Nat → RtpHeader → List Nat) → Nat → Nat → Char →
      Input

/-- Delivery of one inbound UDP datagram: the listener runs only while
the socket is open and its 'message' listener attached (disposal
closes the socket and removes the listener); the session events it
computes are emitted on the session. -/
def handleDatagram (decrypt : List Nat → Option RtpPacket)
    (opusDecode : List Nat → List Nat) (s : SessionState) (d : List Nat) :
    SessionState × List Effect × Bool :=
  if s.socketOpen && s.socketHandlerAttached then
    match onSocketMessage decrypt opusDecode d with
    | Except.error () => (s, [], true)
    | Except.ok evs => (s, evs.map Effect.emit, false)
  else (s, [], false)

/-- One step of the session under an input. -/
def step (decrypt : List Nat → Option RtpPacket)
    (opusDecode : List Nat → List Nat) (s : SessionState) :
    Input → SessionState × List Effect × Bool
  | Input.sip m => handleSipMessage s m
  | Input.datagram d => handleDatagram decrypt opusDecode s d
  | Input.callHangup br =>
    let r := hangup br s
    (r.1, r.2, false)
  | Input.callTransfer ea br target =>
    let r := transfer ea br s target
    (r.1, r.2, false)
  | Input.callSendDTMF enc now ssrc c => sendDTMF enc now ssrc s c

def countClose : List Effect → Nat
  | [] => 0
  | Effect.socketClose :: es => countClose es + 1
  | _ :: es => countClose es

def countEmitDisposed : List Effect → Nat
  | [] => 0
  | Effect.emit SessionEvent.disposed :: es => countEmitDisposed es + 1
  | _ :: es => countEmitDisposed es

def isEmitEffect : Effect → Bool
  | Effect.emit _ => true
  | _ => false

/-- Operations on the session's UDP socket. -/
def isSocketEffect : Effect → Bool
  | Effect.socketSend _ => true
  | Effect.socketOpen => true
  | Effect.socketClose => true
  | _ => false

/-- An outbound BYE request on the signaling channel. -/
def isByeSend : Effect → Bool
  | Effect.sipSend (SipOut.req r) => strStarts r.subject "BYE "
  | _ => false

/-- The book-keeping facts that hold of every disposed session the
code can actually reach: `dispose` is private and only ever invoked
from `byeHandler`, which deregisters itself first, and `dispose`
itself closes the socket and detaches the socket listener. -/
def Quiescent (s : SessionState) : Prop :=
  s.disposed = true →
    s.byeHandlerOn = false ∧ s.socketHandlerAttached = false ∧
      s.socketOpen = false

def sampleCfg : SoftphoneCfg :=
  { domain := "sip.example.com", fakeDomain := "fake.example.com" }

/-- A live session right after `startLocalServices`: socket open and
listening, `byeHandler` registered, not yet transferred. -/
def activeSample : SessionState :=
  { softphone := sampleCfg, callId := "call-1", localPeer := "<sip:alice@x>",
    remotePeer := "<sip:bob@y>", remoteIP := "10.0.0.1", remotePort := 20000,
    disposed := false, socketOpen := true, socketHandlerAttached := true,
    sessionListeners := true, byeHandlerOn := true, notifyHandlerOn := false }

def pktAudioHdr : RtpHeader :=
  { payloadType := 0, sequenceNumber := 1, timestamp := 1, ssrc := 7 }

def pktAudio : RtpPacket := { header := pktAudioHdr, payload := [5] }

def pktDtmfHdr : RtpHeader :=
  { payloadType := 101, sequenceNumber := 2, timestamp := 1, ssrc := 7 }

def pktDtmf : RtpPacket := { header := pktDtmfHdr, payload := [2, 138, 1, 64] }

/-- A sample SRTP decrypt/deserialize: succeeds on the datagrams `[1]`
and `[3]`, throws (`none`) on everything else. -/
def sampleDecrypt : List Nat → Option RtpPacket
  | [1] => some pktAudio
  | [3] => some pktDtmf
  | _ => none

/-- C1: the claim says a second `dispose()` is a no-op that raises no
exception, emits 'disposed' only once in total and invokes
`socket.close()` exactly once.  The code has no double-call guard:
evaluated on a live session, the second `dispose()` re-runs the whole
body — the flag does stay `true`, but 'disposed' is emitted a second
time, `socket.close()` is invoked a second time, and that second
`close` throws (`ERR_SOCKET_DGRAM_NOT_RUNNING`), while the first call
threw nothing. -/
theorem c1_double_dispose_not_guarded :
    (dispose (dispose activeSample).1).2.2 = true ∧
    countClose ((dispose activeSample).2.1 ++
      (dispose (dispose activeSample).1).2.1) = 2 ∧
    countEmitDisposed ((dispose activeSample).2.1 ++
      (dispose (dispose activeSample).1).2.1) = 2 ∧
    (dispose (dispose activeSample).1).1.disposed = true ∧
    (dispose activeSample).2.2 = false := by
  decide

/-- C2: the claim says a decrypt/deserialize failure on the Nth
datagram only drops that datagram and datagrams N-1 and N+1 are still
emitted.  The socket 'message' listener wraps the decrypt in no
try/catch, so the failure propagates out of the listener as an
uncaught exception: on the sequence `[[1], [2], [3]]` with decrypt
failing on `[2]`, only datagram `[1]`'s events are emitted and the
run ends in the uncaught throw — although `[3]` on its own (third
conjunct, sequence without the bad datagram) would have produced its
`dtmfPacket`/`dtmf` events. -/
theorem c2_decrypt_failure_propagates :
    onSocketMessage sampleDecrypt id [2] = Except.error () ∧
    processDatagrams sampleDecrypt id [[1], [2], [3]] =
      ([SessionEvent.rtpPacket pktAudio, SessionEvent.audioPacket pktAudio],
        true) ∧
    processDatagrams sampleDecrypt id [[1], [3]] =
      ([SessionEvent.rtpPacket pktAudio, SessionEvent.audioPacket pktAudio,
        SessionEvent.rtpPacket pktDtmf, SessionEvent.dtmfPacket pktDtmf,
        SessionEvent.dtmf '2'], false) := by
  refine ⟨rfl, ?_, ?_⟩ <;> decide

/-- A session that has called `transfer`, so `notifyHandler` is
registered alongside `byeHandler`. -/
def transferredSample : SessionState :=
  { activeSample with notifyHandlerOn := true }

/-- A NOTIFY whose Call-ID differs from `transferredSample`'s. -/
def crossNotify : InboundMessage :=
  { subject := "NOTIFY sip:carol@z SIP/2.0", callId := "call-2",
    cseq := "2 NOTIFY", body := "SIP/2.0 100 Trying" }

/-- C3 counterexample: the claim says every listener the session
registers on the shared signaling channel ignores a message whose
Call-ID differs — in particular that no response is sent for it.  But
`transfer`'s `notifyHandler` filters only by method: dispatched a
NOTIFY carrying a foreign Call-ID, the session answers it with a 200
response. -/
theorem c3_cross_callid_notify_answered :
    crossNotify.callId ≠ transferredSample.callId ∧
    (handleSipMessage transferredSample crossNotify).2.1 =
      [Effect.sipSend (SipOut.res crossNotify 200)] := by
  decide

/-- C3 amended: the busy/teardown listener (`byeHandler`) does ignore
every message whose Call-ID differs (no response, no event, no state
change); the NOTIFY listener however filters only by method name — it
ignores non-NOTIFY messages, but answers every message whose subject
starts with `NOTIFY ` with a 200 response regardless of Call-ID,
emitting no session event, its only state change being its own
deregistration when the body trims to `SIP/2.0 200 OK`. -/
theorem c3_callid_filtering_amended (s : SessionState) (m : InboundMessage) :
    (m.callId ≠ s.callId → byeHandlerFn s m = (s, [], false)) ∧
    (strStarts m.subject "NOTIFY " = false → notifyHandlerFn s m = (s, [])) ∧
    (strStarts m.subject "NOTIFY " = true →
      (notifyHandlerFn s m).2 = [Effect.sipSend (SipOut.res m 200)] ∧
      (notifyHandlerFn s m).1 =
        (if strTrim m.body = "SIP/2.0 200 OK" then
          { s with notifyHandlerOn := false } else s)) := by
  refine ⟨fun h => ?_, fun h => ?_, fun h => ⟨?_, ?_⟩⟩
  · simp [byeHandlerFn, h]
  · simp [notifyHandlerFn, h]
  · simp only [notifyHandlerFn, h, if_true]
    split <;> rfl
  · simp only [notifyHandlerFn, h, if_true]
    split <;> rfl

theorem c3_amended_witness :
    byeHandlerFn transferredSample crossNotify =
      (transferredSample, [], false) ∧
    (notifyHandlerFn transferredSample crossNotify).2 =
      [Effect.sipSend (SipOut.res crossNotify 200)] := by
  have h := c3_callid_filtering_amended transferredSample crossNotify
  exact ⟨h.1 (by decide), (h.2.2 (by decide)).1⟩

/-- C4: `sendDTMF` on a character outside `{0-9, *, #}` is rejected by
`DTMF.charToPayloads` (which throws) before the payload loop runs: the
effect trace is empty — no datagram is sent and no encryption is
invoked — and the session state is untouched. -/
theorem c4_sendDTMF_rejects_invalid
    (encrypt : List Nat → RtpHeader → List Nat) (now ssrc : Nat)
    (s : SessionState) (c : Char)
    (h : ¬ (('0' ≤ c ∧ c ≤ '9') ∨ c = '*' ∨ c = '#')) :
    sendDTMF encrypt now ssrc s c = (s, [], true) := by
  rw [not_or, not_or] at h
  obtain ⟨h1, h2, h3⟩ := h
  simp [sendDTMF, charToPayloads, charToCode, h1, h2, h3]

theorem c4_witness :
    sendDTMF (fun p _ => p) 1700000000 42 activeSample 'a' =
      (activeSample, [], true) :=
  c4_sendDTMF_rejects_invalid (fun p _ => p) 1700000000 42 activeSample 'a'
    (by decide)

theorem byeHandlerFn_keeps_quiescent (s : SessionState) (m : InboundMessage)
    (hq : Quiescent s) : Quiescent (byeHandlerFn s m).1 := by
  unfold byeHandlerFn
  split
  · exact hq
  · split
    · exact fun _ => ⟨rfl, rfl, rfl⟩
    · split
      · exact fun _ => ⟨rfl, rfl, rfl⟩
      · exact hq

theorem notifyHandlerFn_keeps_quiescent (s : SessionState)
    (m : InboundMessage) (hq : Quiescent s) :
    Quiescent (notifyHandlerFn s m).1 := by
  unfold notifyHandlerFn
  split
  · split
    · exact fun hd => hq hd
    · exact hq
  · exact hq

theorem afterBye_keeps_quiescent (m : InboundMessage)
    (r1 : SessionState × List Effect × Bool) (h : Quiescent r1.1) :
    Quiescent (afterByeDispatch m r1).1 := by
  unfold afterByeDispatch
  split
  · exact h
  · split
    · exact notifyHandlerFn_keeps_quiescent _ m h
    · exact h

theorem handleSip_keeps_quiescent (s : SessionState) (m : InboundMessage)
    (hq : Quiescent s) : Quiescent (handleSipMessage s m).1 := by
  unfold handleSipMessage
  split
  · exact afterBye_keeps_quiescent m _ (byeHandlerFn_keeps_quiescent s m hq)
  · exact afterBye_keeps_quiescent m _ hq

theorem notifyHandlerFn_effects_benign (s : SessionState)
    (m : InboundMessage) :
    ∀ e ∈ (notifyHandlerFn s m).2,
      isEmitEffect e = false ∧ isSocketEffect e = false := by
  intro e he
  unfold notifyHandlerFn at he
  split at he
  · split at he
    · simp only [List.mem_singleton] at he
      subst he
      exact ⟨rfl, rfl⟩
    · simp only [List.mem_singleton] at he
      subst he
      exact ⟨rfl, rfl⟩
  · simp at he

theorem dtmfLoop_closed_effects (enc : List Nat → RtpHeader → List Nat)
    (hdr : RtpHeader) (seq : Nat) (ps : List (List Nat)) :
    ∀ e ∈ (dtmfLoop enc hdr false seq ps).1,
      isEmitEffect e = false ∧ isSocketEffect e = false := by
  intro e he
  cases ps with
  | nil => simp [dtmfLoop] at he
  | cons p ps =>
    simp only [dtmfLoop, Bool.false_eq_true, if_false, List.mem_singleton]
      at he
    subst he
    exact ⟨rfl, rfl⟩

theorem handleDatagram_state_eq (decrypt : List Nat → Option RtpPacket)
    (opusDecode : List Nat → List Nat) (s : SessionState) (d : List Nat) :
    (handleDatagram decrypt opusDecode s d).1 = s := by
  unfold handleDatagram
  split
  · split <;> rfl
  · rfl

theorem sendDTMF_state_eq (enc : List Nat → RtpHeader → List Nat)
    (now ssrc : Nat) (s : SessionState) (c : Char) :
    (sendDTMF enc now ssrc s c).1 = s := by
  unfold sendDTMF
  split <;> rfl

/-- C5: once `disposed` is true, no further UDP socket I/O occurs and
no session event is emitted, whatever input arrives next.  The
book-keeping `Quiescent` (byeHandler deregistered, socket listener
detached, socket closed whenever `disposed` holds) is exactly what the
code establishes at the single disposal site — `dispose` is private,
called only from the self-deregistering `byeHandler` — and the first
conjunct shows every step preserves it; under it, a disposed session's
step produces no emit and no socket operation (the post-dispose
signaling sends of `hangup`/`transfer`/`notifyHandler` touch neither
the UDP socket nor the session's emitter; a post-dispose `sendDTMF`
reaches the closed socket and throws before any datagram leaves). -/
theorem c5_disposed_silent (decrypt : List Nat → Option RtpPacket)
    (opusDecode : List Nat → List Nat) (s : SessionState) (i : Input)
    (hq : Quiescent s) :
    Quiescent (step decrypt opusDecode s i).1 ∧
    (s.disposed = true →
      ∀ e ∈ (step decrypt opusDecode s i).2.1,
        isEmitEffect e = false ∧ isSocketEffect e = false) := by
  cases i with
  | sip m =>
    refine ⟨handleSip_keeps_quiescent s m hq, fun hd e he => ?_⟩
    have h3 := hq hd
    simp only [step, handleSipMessage, afterByeDispatch, h3.1,
      Bool.false_eq_true, if_false, List.nil_append] at he
    split at he
    · exact notifyHandlerFn_effects_benign s m e he
    · simp at he
  | datagram d =>
    constructor
    · simp only [step]
      rw [handleDatagram_state_eq]
      exact hq
    · intro hd e he
      have h3 := hq hd
      simp only [step, handleDatagram, h3.2.2, Bool.false_and,
        Bool.false_eq_true, if_false] at he
      simp at he
  | callHangup br =>
    refine ⟨hq, fun hd e he => ?_⟩
    simp only [step, hangup, List.mem_singleton] at he
    subst he
    exact ⟨rfl, rfl⟩
  | callTransfer ea br target =>
    constructor
    · exact fun hd => hq hd
    · intro hd e he
      simp only [step, transfer, List.mem_singleton] at he
      subst he
      exact ⟨rfl, rfl⟩
  | callSendDTMF enc now ssrc c =>
    constructor
    · simp only [step]
      rw [sendDTMF_state_eq]
      exact hq
    · intro hd e he
      have h3 := hq hd
      simp only [step, sendDTMF] at he
      split at he
      · simp at he
      · rw [h3.2.2] at he
        exact dtmfLoop_closed_effects enc _ _ _ e he

/-- A disposed session as the code leaves it after teardown. -/
def disposedSample : SessionState :=
  { activeSample with
    disposed := true
    socketOpen := false
    socketHandlerAttached := false
    sessionListeners := false
    byeHandlerOn := false }

theorem c5_witness :
    Quiescent (step sampleDecrypt id disposedSample (Input.datagram [1])).1 ∧
    (disposedSample.disposed = true →
      ∀ e ∈ (step sampleDecrypt id disposedSample (Input.datagram [1])).2.1,
        isEmitEffect e = false ∧ isSocketEffect e = false) :=
  c5_disposed_silent sampleDecrypt id disposedSample (Input.datagram [1])
    (fun _ => ⟨rfl, rfl, rfl⟩)

def countEmitBusy : List Effect → Nat
  | [] => 0
  | Effect.emit SessionEvent.busy :: es => countEmitBusy es + 1
  | _ :: es => countEmitBusy es

/-- C6: on an inbound message matching the session's Call-ID whose
subject ends with `486 Busy Here`, the dispatch emits `busy` then
`disposed`, each exactly once, and sends no BYE request (whatever the
transfer-listener state, the only possible extra effect is the
`notifyHandler`'s 200 response). -/
theorem c6_busy_sequence (s : SessionState) (m : InboundMessage)
    (h1 : s.byeHandlerOn = true) (h2 : s.socketOpen = true)
    (h3 : m.callId = s.callId)
    (h4 : strEnds m.subject "486 Busy Here" = true) :
    (handleSipMessage s m).2.1.take 2 =
      [Effect.emit SessionEvent.busy, Effect.emit SessionEvent.disposed] ∧
    countEmitBusy (handleSipMessage s m).2.1 = 1 ∧
    countEmitDisposed (handleSipMessage s m).2.1 = 1 ∧
    (∀ e ∈ (handleSipMessage s m).2.1, isByeSend e = false) := by
  by_cases hn : s.notifyHandlerOn = true <;>
    by_cases hs : strStarts m.subject "NOTIFY " = true <;>
    by_cases ht : strTrim m.body = "SIP/2.0 200 OK" <;>
    refine ⟨?_, ?_, ?_, ?_⟩ <;>
    simp [handleSipMessage, afterByeDispatch, byeHandlerFn, notifyHandlerFn,
      dispose, h1, h2, h3, h4, hn, hs, ht, countEmitBusy, countEmitDisposed,
      isByeSend, List.forall_mem_cons]

/-- The 486 response that ends an unanswered outbound call. -/
def busyMsg : InboundMessage :=
  { subject := "SIP/2.0 486 Busy Here", callId := "call-1",
    cseq := "1 INVITE", body := "" }

theorem c6_witness :
    (handleSipMessage activeSample busyMsg).2.1.take 2 =
      [Effect.emit SessionEvent.busy, Effect.emit SessionEvent.disposed] ∧
    countEmitBusy (handleSipMessage activeSample busyMsg).2.1 = 1 ∧
    countEmitDisposed (handleSipMessage activeSample busyMsg).2.1 = 1 ∧
    (∀ e ∈ (handleSipMessage activeSample busyMsg).2.1,
      isByeSend e = false) :=
  c6_busy_sequence activeSample busyMsg rfl rfl rfl (by decide)

/-- C7: a SIP message whose body lacks the `m=audio <port> ` line or
the `c=IN IP4 <ip>` line makes the constructor throw deterministically
(no session is produced), with an empty effect trace — in particular
no UDP socket is opened before the failure. -/
theorem c7_malformed_offer (sp : SoftphoneCfg) (sm : InboundMessage)
    (h : matchMAudio sm.body = none ∨ matchCIP sm.body = none) :
    construct sp sm = (none, []) ∧
    ∀ e ∈ (construct sp sm).2, e ≠ Effect.socketOpen := by
  have hc : construct sp sm = (none, []) := by
    rcases h with h | h
    · cases hcip : matchCIP sm.body <;> simp [construct, hcip, h]
    · simp [construct, h]
  refine ⟨hc, ?_⟩
  rw [hc]
  intro e he
  cases he

/-- An offer body with a connection line but no audio media line. -/
def badOffer : InboundMessage :=
  { subject := "INVITE sip:alice@x SIP/2.0", callId := "call-7",
    cseq := "1 INVITE", body := "v=0\nc=IN IP4 10.1.2.3\n" }

theorem c7_witness :
    construct sampleCfg badOffer = (none, []) ∧
    ∀ e ∈ (construct sampleCfg badOffer).2, e ≠ Effect.socketOpen :=
  c7_malformed_offer sampleCfg badOffer (Or.inl (by decide))

theorem byeHandlerFn_ignores (s : SessionState) (m : InboundMessage)
    (hbusy : strEnds m.subject "486 Busy Here" = false)
    (hbye : strEnds m.cseq " BYE" = false) :
    byeHandlerFn s m = (s, [], false) := by
  unfold byeHandlerFn
  split
  · rfl
  · rw [if_neg (by simp [hbusy]), if_neg (by simp [hbye])]

theorem handleSip_notify_only (s : SessionState) (m : InboundMessage)
    (hbusy : strEnds m.subject "486 Busy Here" = false)
    (hbye : strEnds m.cseq " BYE" = false) :
    handleSipMessage s m =
      (if s.notifyHandlerOn then
        ((notifyHandlerFn s m).1, (notifyHandlerFn s m).2, false)
      else (s, [], false)) := by
  unfold handleSipMessage afterByeDispatch
  rw [byeHandlerFn_ignores s m hbusy hbye, ite_self]
  simp

theorem notifyHandlerFn_effects_on_notify (s : SessionState)
    (m : InboundMessage) (hs : strStarts m.subject "NOTIFY " = true) :
    (notifyHandlerFn s m).2 = [Effect.sipSend (SipOut.res m 200)] := by
  unfold notifyHandlerFn
  rw [if_pos hs]
  split <;> rfl

theorem notifyHandlerFn_state_on_ok (s : SessionState) (m : InboundMessage)
    (hs : strStarts m.subject "NOTIFY " = true)
    (ht : strTrim m.body = "SIP/2.0 200 OK") :
    (notifyHandlerFn s m).1 = { s with notifyHandlerOn := false } := by
  unfold notifyHandlerFn
  rw [if_pos hs, if_pos ht]

/-- C8: `transfer(target)` sends exactly one REFER whose request-URI is
built from the session's current remote peer (through the `utils`
address extraction) and whose Refer-To header names the literal
target, and registers the NOTIFY listener.  Afterwards every inbound
NOTIFY (here: a message whose subject starts with `NOTIFY ` and which,
like every real NOTIFY, neither ends in `486 Busy Here` nor carries a
CSeq method BYE) is answered with exactly one 200 response; the first
one whose body trims to `SIP/2.0 200 OK` deregisters the listener, and
from then on a further NOTIFY — even one with the session's own
Call-ID — produces no effect and no state change at all. -/
theorem c8_transfer_behavior (ea : String → String) (br : String)
    (s : SessionState) (target : String) :
    (transfer ea br s target).2 =
      [Effect.sipSend (SipOut.req (referRequest ea br s target))] ∧
    (referRequest ea br s target).subject =
      "REFER sip:" ++ ea s.remotePeer ++ " SIP/2.0" ∧
    ("Refer-To", "sip:" ++ target ++ "@sip.ringcentral.com") ∈
      (referRequest ea br s target).headers ∧
    ("Call-ID", s.callId) ∈ (referRequest ea br s target).headers ∧
    (transfer ea br s target).1.notifyHandlerOn = true ∧
    (∀ m : InboundMessage,
      strStarts m.subject "NOTIFY " = true →
      strEnds m.subject "486 Busy Here" = false →
      strEnds m.cseq " BYE" = false →
      (handleSipMessage (transfer ea br s target).1 m).2.1 =
        [Effect.sipSend (SipOut.res m 200)] ∧
      (strTrim m.body = "SIP/2.0 200 OK" →
        (handleSipMessage (transfer ea br s target).1 m).1.notifyHandlerOn
            = false ∧
        (∀ m2 : InboundMessage,
          m2.callId = s.callId →
          strStarts m2.subject "NOTIFY " = true →
          strEnds m2.subject "486 Busy Here" = false →
          strEnds m2.cseq " BYE" = false →
          handleSipMessage
              (handleSipMessage (transfer ea br s target).1 m).1 m2 =
            ((handleSipMessage (transfer ea br s target).1 m).1, [],
              false)))) := by
  refine ⟨rfl, rfl, by simp [referRequest], by simp [referRequest], rfl, ?_⟩
  intro m hs hbusy hbye
  have hdisp := handleSip_notify_only (transfer ea br s target).1 m hbusy hbye
  rw [if_pos
    (show (transfer ea br s target).1.notifyHandlerOn = true from rfl)]
    at hdisp
  refine ⟨?_, ?_⟩
  · rw [hdisp]
    exact notifyHandlerFn_effects_on_notify _ m hs
  · intro ht
    have hst : (handleSipMessage (transfer ea br s target).1 m).1 =
        { (transfer ea br s target).1 with notifyHandlerOn := false } := by
      rw [hdisp]
      exact notifyHandlerFn_state_on_ok _ m hs ht
    refine ⟨by rw [hst], ?_⟩
    intro m2 _ _ hbusy2 hbye2
    rw [hst]
    have hdisp2 := handleSip_notify_only
      { (transfer ea br s target).1 with notifyHandlerOn := false } m2
      hbusy2 hbye2
    rw [if_neg (by simp)] at hdisp2
    exact hdisp2

def notifyProgress : InboundMessage :=
  { subject := "NOTIFY sip:alice@x SIP/2.0", callId := "call-1",
    cseq := "1 NOTIFY", body := " SIP/2.0 200 OK \n" }

def notifyLate : InboundMessage :=
  { subject := "NOTIFY sip:alice@x SIP/2.0", callId := "call-1",
    cseq := "2 NOTIFY", body := "SIP/2.0 200 OK" }

theorem c8_witness :
    (transfer (fun p => p) "b1" activeSample "18005551212").2 =
      [Effect.sipSend (SipOut.req
        (referRequest (fun p => p) "b1" activeSample "18005551212"))] ∧
    (handleSipMessage
        (transfer (fun p => p) "b1" activeSample "18005551212").1
        notifyProgress).2.1 =
      [Effect.sipSend (SipOut.res notifyProgress 200)] ∧
    handleSipMessage
        (handleSipMessage
          (transfer (fun p => p) "b1" activeSample "18005551212").1
          notifyProgress).1 notifyLate =
      ((handleSipMessage
          (transfer (fun p => p) "b1" activeSample "18005551212").1
          notifyProgress).1, [], false) := by
  have h := c8_transfer_behavior (fun p => p) "b1" activeSample "18005551212"
  have h6 := h.2.2.2.2.2 notifyProgress (by decide) (by decide) (by decide)
  have h7 := (h6.2 (by decide)).2 notifyLate rfl (by decide) (by decide)
    (by decide)
  exact ⟨h.1, h6.1, h7⟩

/-- C9: `hangup()` sends exactly one BYE, addressed to the home
server's domain and carrying the session's Call-ID, and leaves the
session state literally unchanged — so `disposed` stays false, no
session event is emitted, no UDP socket operation happens, the socket
stays open.  Disposal happens only later, at the signaling listener:
`byeHandler`, on a message matching the session's Call-ID whose CSeq
method is BYE, disposes the session. -/
theorem c9_hangup_frame (br : String) (s : SessionState) :
    hangup br s = (s, [Effect.sipSend (SipOut.req (byeRequest br s))]) ∧
    (byeRequest br s).subject =
      "BYE sip:" ++ s.softphone.domain ++ " SIP/2.0" ∧
    ("Call-ID", s.callId) ∈ (byeRequest br s).headers ∧
    (∀ e ∈ (hangup br s).2,
      isEmitEffect e = false ∧ isSocketEffect e = false) ∧
    (∀ m : InboundMessage, m.callId = s.callId →
      strEnds m.subject "486 Busy Here" = false →
      strEnds m.cseq " BYE" = true →
      (byeHandlerFn s m).1.disposed = true) := by
  refine ⟨rfl, rfl, by simp [byeRequest], ?_, ?_⟩
  · intro e he
    simp only [hangup, List.mem_singleton] at he
    subst he
    exact ⟨rfl, rfl⟩
  · intro m hc hbusy hbye
    unfold byeHandlerFn
    rw [if_neg (by simp [hc]), if_neg (by simp [hbusy]), if_pos hbye]
    rfl

/-- The peer's confirming in-dialog BYE for `activeSample`. -/
def confirmingBye : InboundMessage :=
  { subject := "BYE sip:alice@x SIP/2.0", callId := "call-1",
    cseq := "2 BYE", body := "" }

theorem c9_witness :
    hangup "b2" activeSample =
      (activeSample,
        [Effect.sipSend (SipOut.req (byeRequest "b2" activeSample))]) ∧
    (byeHandlerFn activeSample confirmingBye).1.disposed = true := by
  have h := c9_hangup_frame "b2" activeSample
  exact ⟨h.1, h.2.2.2.2 confirmingBye rfl (by decide) (by decide)⟩

/-- C10: every datagram that decrypts and deserializes successfully is
emitted as `rtpPacket` first, regardless of payload type, and the
classified event for the same datagram (`dtmfPacket` on payload type
101, otherwise `audioPacket` with the Opus-decoded payload) follows
it. -/
theorem c10_rtp_first (decrypt : List Nat → Option RtpPacket)
    (opusDecode : List Nat → List Nat) (d : List Nat) (p : RtpPacket)
    (h : decrypt d = some p) :
    ∃ rest, onSocketMessage decrypt opusDecode d =
        Except.ok (SessionEvent.rtpPacket p :: rest) ∧
      (p.header.payloadType = 101 →
        ∃ r2, rest = SessionEvent.dtmfPacket p :: r2) ∧
      (p.header.payloadType ≠ 101 →
        rest = [SessionEvent.audioPacket
          { p with payload := opusDecode p.payload }]) := by
  by_cases hp : p.header.payloadType = 101
  · refine ⟨SessionEvent.dtmfPacket p ::
      (match payloadToChar p.payload with
       | some c => [SessionEvent.dtmf c]
       | none => []), ?_, fun _ => ⟨_, rfl⟩, fun hne => absurd hp hne⟩
    simp [onSocketMessage, h, hp]
  · refine ⟨[SessionEvent.audioPacket
      { p with payload := opusDecode p.payload }],
      ?_, fun hcon => absurd hcon hp, fun _ => rfl⟩
    simp [onSocketMessage, h, hp]

theorem c10_witness :
    ∃ rest, onSocketMessage sampleDecrypt id [3] =
        Except.ok (SessionEvent.rtpPacket pktDtmf :: rest) ∧
      (pktDtmf.header.payloadType = 101 →
        ∃ r2, rest = SessionEvent.dtmfPacket pktDtmf :: r2) ∧
      (pktDtmf.header.payloadType ≠ 101 →
        rest = [SessionEvent.audioPacket
          { pktDtmf with payload := id pktDtmf.payload }]) :=
  c10_rtp_first sampleDecrypt id [3] pktDtmf rfl

end RC
